import Mathlib

/-!
Shallow embedding of `src/main.rs` of the http2-load-test tool: the
rate-controlled dispatcher, the request executor `make_request`, the
shared counters it mutates, and the final statistics computation.

Modelling conventions:
- `Duration` values are natural numbers (nanoseconds); Rust `Duration`
  ordering and the zero duration `Duration::new(0, 0)` map to `Nat`
  ordering and `0`.
- `f64` arithmetic in the statistics block is modelled over `ℚ`; a
  division whose divisor is zero produces `none` (the non-finite
  result, NaN or infinity, that `f64` division by zero yields), every
  other division is exact.
- The shared `in_flight : AtomicUsize` counter is modelled as `ℤ` so
  that "never goes negative" is expressible.
- Concurrency is modelled as a small-step transition system: each
  spawned request task is a little program whose shared-memory
  operations (the two atomic counter updates and the two lock-guarded
  updates) are individual atomic steps, interleaved arbitrarily.
-/

/-! ## Statistics block (main.rs lines 117-138) -/

/-- Value of the `f64` division `a / b` in the statistics block: `none`
models the non-finite result (NaN or infinity) that `f64` produces when
the divisor is zero; otherwise the division is exact. -/
def fdiv (a b : ℚ) : Option ℚ :=
  if b = 0 then none else some (a / b)

/-- Line 121: `let success_rate = (success_count as f64 / total_requests as f64) * 100.0;`.
There is no guard on `total_requests = 0`. -/
def success_rate (success_count total_requests : ℕ) : Option ℚ :=
  (fdiv (success_count : ℚ) (total_requests : ℚ)).map (fun q => q * 100)

/-- Lines 122-130: clone the response-time log, `times.sort()` (a stable
ascending sort), return the zero duration if the log is empty, otherwise
the element at index `times.len() / 2`.  The index `len / 2` is strictly
below `len` for a non-empty list, so `getD` never takes its default. -/
def median_response_time (response_times : List ℕ) : ℕ :=
  let times := List.insertionSort (fun a b => a ≤ b) response_times
  if times.isEmpty then 0 else times.getD (times.length / 2) 0

/-- Lines 131-138: sum of the in-flight samples divided by their count,
`0.0` when no samples were collected. -/
def average_in_flight (in_flight_samples : List ℕ) : ℚ :=
  if 0 < in_flight_samples.length then
    (in_flight_samples.sum : ℚ) / (in_flight_samples.length : ℚ)
  else 0

/-! ## The request executor `make_request` (main.rs lines 147-167) -/

/-- What the awaited `send_request` call resolves to: either the server
returns a response (carrying some HTTP status code, which the executor
never inspects), or the exchange fails with a transport or protocol
error (connection reset, timeout, handshake failure). -/
inductive SendReply where
  | response (status : ℕ)
  | transportErr
deriving DecidableEq

/-- Lines 147-167.  `build_ok` is whether `Request::builder()...body(...)`
succeeds (its `?` returns early on failure, before the counter is
touched); `reply` is what `send_request` resolves to; `elapsed` is the
measured `start.elapsed()`.  Returns the updated `in_flight` counter and
`some elapsed` on `Ok(duration)`, `none` on an `Err` return.

Note the transport-error path: `sender.send_request(req).await?` returns
early, so the `fetch_sub` on line 164 is skipped and the increment from
line 162 is never undone. -/
def make_request (in_flight : ℤ) (build_ok : Bool) (reply : SendReply)
    (elapsed : ℕ) : ℤ × Option ℕ :=
  if build_ok then
    match reply with
    | .response _ => (in_flight + 1 - 1, some elapsed)
    | .transportErr => (in_flight + 1, none)
  else (in_flight, none)

/-- The spawned closure, lines 97-108: run `make_request`; on
`Ok(duration)` increment the shared success count and push the duration
onto the shared response-time log; on `Err` touch neither. -/
def requestTask (in_flight : ℤ) (success_count : ℕ) (response_times : List ℕ)
    (build_ok : Bool) (reply : SendReply) (elapsed : ℕ) : ℤ × ℕ × List ℕ :=
  match make_request in_flight build_ok reply elapsed with
  | (fl, some d) => (fl, success_count + 1, response_times ++ [d])
  | (fl, none) => (fl, success_count, response_times)

/-! ## Interleaved execution of the spawned request tasks

Each of the `total` spawned tasks (main.rs lines 97-108 calling lines
147-167) performs, in program order, these shared-memory operations:
`in_flight.fetch_add(1)` (line 162), the awaited send resolving, on the
success path `in_flight.fetch_sub(1)` (line 164) then `*sc += 1` under
the success-count lock (lines 102-104) then `rt.push(duration)` under
the response-times lock (lines 105-106).  On a build error nothing is
touched; on a send error the task returns after the `fetch_add` only.
The tasks run concurrently, so executions are arbitrary interleavings
of these per-task atomic steps. -/

/-- How one task's request attempt resolves: the request builder fails,
the send fails with a transport error, or the server replies (with some
status code, after `d` nanoseconds). -/
inductive Behavior where
  | buildErr
  | sendErr
  | ok (status : ℕ) (d : ℕ)
deriving DecidableEq

/-- Where one spawned task currently is in its program. -/
inductive Phase where
  /-- spawned, no shared-memory operation performed yet -/
  | ready
  /-- performed `fetch_add`, awaiting the send -/
  | inFlight
  /-- send succeeded and `fetch_sub` performed, back in the closure -/
  | returned (d : ℕ)
  /-- incremented the success count, latency not yet pushed -/
  | counted (d : ℕ)
  /-- finished with `Ok(d)`: success count and log both updated -/
  | doneOk (d : ℕ)
  /-- finished via the early return of `send_request(..).await?` -/
  | doneSendErr
  /-- finished via the early return of `.body(..)?` -/
  | doneBuildErr
deriving DecidableEq

/-- The shared state plus each task's control point. -/
structure SysState where
  in_flight : ℤ
  success_count : ℕ
  response_times : List ℕ
  tasks : List Phase
deriving DecidableEq

/-- One atomic step of the interleaved execution: some task `i`, whose
attempt resolves as `beh[i]`, performs its next shared-memory operation. -/
inductive Step (beh : List Behavior) : SysState → SysState → Prop where
  /-- `.body(..)?` fails: early return, no counter touched. -/
  | buildErr (s : SysState) (i : ℕ)
      (hb : beh[i]? = some .buildErr) (hp : s.tasks[i]? = some .ready) :
      Step beh s { s with tasks := s.tasks.set i .doneBuildErr }
  /-- Line 162: `in_flight.fetch_add(1, Ordering::SeqCst)`. -/
  | fetchAdd (s : SysState) (i : ℕ) (b : Behavior)
      (hb : beh[i]? = some b) (hne : b ≠ .buildErr)
      (hp : s.tasks[i]? = some .ready) :
      Step beh s { s with tasks := s.tasks.set i .inFlight,
                          in_flight := s.in_flight + 1 }
  /-- Line 163: the send fails, `?` returns early — no `fetch_sub`. -/
  | sendErr (s : SysState) (i : ℕ)
      (hb : beh[i]? = some .sendErr) (hp : s.tasks[i]? = some .inFlight) :
      Step beh s { s with tasks := s.tasks.set i .doneSendErr }
  /-- Line 164: the send succeeded, `in_flight.fetch_sub(1, Ordering::SeqCst)`. -/
  | sendOk (s : SysState) (i status d : ℕ)
      (hb : beh[i]? = some (.ok status d)) (hp : s.tasks[i]? = some .inFlight) :
      Step beh s { s with tasks := s.tasks.set i (.returned d),
                          in_flight := s.in_flight - 1 }
  /-- Lines 102-104: `*sc += 1` under the success-count lock. -/
  | incSuccess (s : SysState) (i d : ℕ)
      (hp : s.tasks[i]? = some (.returned d)) :
      Step beh s { s with tasks := s.tasks.set i (.counted d),
                          success_count := s.success_count + 1 }
  /-- Lines 105-106: `rt.push(duration)` under the response-times lock. -/
  | pushTime (s : SysState) (i d : ℕ)
      (hp : s.tasks[i]? = some (.counted d)) :
      Step beh s { s with tasks := s.tasks.set i (.doneOk d),
                          response_times := s.response_times ++ [d] }

/-- Initial state: counters zero, logs empty, all `n` tasks spawned by
the dispatch loop (lines 87-111) and not yet scheduled. -/
def initState (n : ℕ) : SysState :=
  { in_flight := 0, success_count := 0, response_times := [],
    tasks := List.replicate n .ready }

/-- States an execution with per-task resolutions `beh` can reach. -/
def Reachable (beh : List Behavior) (s : SysState) : Prop :=
  Relation.ReflTransGen (Step beh) (initState beh.length) s

/-- Contribution of a task in a given phase to the `in_flight` counter:
it has performed the `fetch_add` but not the `fetch_sub`.  A task that
ended in `doneSendErr` keeps its contribution forever. -/
def flWeight : Phase → ℤ
  | .ready => 0
  | .inFlight => 1
  | .returned _ => 0
  | .counted _ => 0
  | .doneOk _ => 0
  | .doneSendErr => 1
  | .doneBuildErr => 0

/-- Contribution of a task in a given phase to `success_count`. -/
def scWeight : Phase → ℕ
  | .ready => 0
  | .inFlight => 0
  | .returned _ => 0
  | .counted _ => 1
  | .doneOk _ => 1
  | .doneSendErr => 0
  | .doneBuildErr => 0

/-- Contribution of a task in a given phase to the length of the
response-times log. -/
def rtWeight : Phase → ℕ
  | .ready => 0
  | .inFlight => 0
  | .returned _ => 0
  | .counted _ => 0
  | .doneOk _ => 1
  | .doneSendErr => 0
  | .doneBuildErr => 0

/-- Whether a task has finished (its closure returned). -/
def Phase.isDone : Phase → Bool
  | .doneOk _ => true
  | .doneSendErr => true
  | .doneBuildErr => true
  | _ => false

/-- Whether a task has finished with a recorded failure (transport error
or build error). -/
def Phase.isFailed : Phase → Bool
  | .doneSendErr => true
  | .doneBuildErr => true
  | _ => false

/-- The inductive invariant of the execution: the task-list length is
fixed, and each shared variable equals the sum of the per-task
contributions determined by the tasks' control points. -/
def SysInv (beh : List Behavior) (s : SysState) : Prop :=
  s.tasks.length = beh.length ∧
  s.in_flight = (s.tasks.map flWeight).sum ∧
  s.success_count = (s.tasks.map scWeight).sum ∧
  s.response_times.length = (s.tasks.map rtWeight).sum

/-- Updating one list entry changes a mapped sum by the difference of
the images of the new and old entries. -/
theorem sum_map_set {α β : Type} [AddCommMonoid β] (f : α → β) :
    ∀ (l : List α) (i : ℕ) (a b : α), l[i]? = some a →
      ((l.set i b).map f).sum + f a = (l.map f).sum + f b := by
  intro l
  induction l with
  | nil => intro i a b h; simp at h
  | cons c t ih =>
    intro i a b h
    cases i with
    | zero =>
      simp only [List.getElem?_cons_zero, Option.some.injEq] at h
      subst h
      simp only [List.set_cons_zero, List.map_cons, List.sum_cons]
      abel
    | succ j =>
      simp only [List.getElem?_cons_succ] at h
      simp only [List.set_cons_succ, List.map_cons, List.sum_cons, add_assoc]
      rw [ih j a b h]

/-- The invariant holds in the initial state. -/
theorem sysInv_init (beh : List Behavior) : SysInv beh (initState beh.length) := by
  refine ⟨?_, ?_, ?_, ?_⟩ <;>
    simp [initState, SysInv, List.map_replicate, List.sum_replicate,
      flWeight, scWeight, rtWeight]

/-- The invariant is preserved by every step. -/
theorem sysInv_step {beh : List Behavior} {s t : SysState}
    (hst : Step beh s t) (hs : SysInv beh s) : SysInv beh t := by
  obtain ⟨hlen, hfl, hsc, hrt⟩ := hs
  cases hst with
  | buildErr i hb hp =>
    have h1 := sum_map_set flWeight s.tasks i _ Phase.doneBuildErr hp
    have h2 := sum_map_set scWeight s.tasks i _ Phase.doneBuildErr hp
    have h3 := sum_map_set rtWeight s.tasks i _ Phase.doneBuildErr hp
    simp only [flWeight, scWeight, rtWeight] at h1 h2 h3
    refine ⟨?_, ?_, ?_, ?_⟩ <;> dsimp only <;>
      (try simp only [List.length_set]) <;> omega
  | fetchAdd i b hb hne hp =>
    have h1 := sum_map_set flWeight s.tasks i _ Phase.inFlight hp
    have h2 := sum_map_set scWeight s.tasks i _ Phase.inFlight hp
    have h3 := sum_map_set rtWeight s.tasks i _ Phase.inFlight hp
    simp only [flWeight, scWeight, rtWeight] at h1 h2 h3
    refine ⟨?_, ?_, ?_, ?_⟩ <;> dsimp only <;>
      (try simp only [List.length_set]) <;> omega
  | sendErr i hb hp =>
    have h1 := sum_map_set flWeight s.tasks i _ Phase.doneSendErr hp
    have h2 := sum_map_set scWeight s.tasks i _ Phase.doneSendErr hp
    have h3 := sum_map_set rtWeight s.tasks i _ Phase.doneSendErr hp
    simp only [flWeight, scWeight, rtWeight] at h1 h2 h3
    refine ⟨?_, ?_, ?_, ?_⟩ <;> dsimp only <;>
      (try simp only [List.length_set]) <;> omega
  | sendOk i status d hb hp =>
    have h1 := sum_map_set flWeight s.tasks i _ (Phase.returned d) hp
    have h2 := sum_map_set scWeight s.tasks i _ (Phase.returned d) hp
    have h3 := sum_map_set rtWeight s.tasks i _ (Phase.returned d) hp
    simp only [flWeight, scWeight, rtWeight] at h1 h2 h3
    refine ⟨?_, ?_, ?_, ?_⟩ <;> dsimp only <;>
      (try simp only [List.length_set]) <;> omega
  | incSuccess i d hp =>
    have h1 := sum_map_set flWeight s.tasks i _ (Phase.counted d) hp
    have h2 := sum_map_set scWeight s.tasks i _ (Phase.counted d) hp
    have h3 := sum_map_set rtWeight s.tasks i _ (Phase.counted d) hp
    simp only [flWeight, scWeight, rtWeight] at h1 h2 h3
    refine ⟨?_, ?_, ?_, ?_⟩ <;> dsimp only <;>
      (try simp only [List.length_set]) <;> omega
  | pushTime i d hp =>
    have h1 := sum_map_set flWeight s.tasks i _ (Phase.doneOk d) hp
    have h2 := sum_map_set scWeight s.tasks i _ (Phase.doneOk d) hp
    have h3 := sum_map_set rtWeight s.tasks i _ (Phase.doneOk d) hp
    simp only [flWeight, scWeight, rtWeight] at h1 h2 h3
    refine ⟨?_, ?_, ?_, ?_⟩ <;> dsimp only <;>
      (try simp only [List.length_set, List.length_append, List.length_cons,
        List.length_nil]) <;> omega

/-- The invariant holds in every reachable state. -/
theorem sysInv_reachable {beh : List Behavior} {s : SysState}
    (h : Reachable beh s) : SysInv beh s := by
  induction h with
  | refl => exact sysInv_init beh
  | tail _ hbc ih => exact sysInv_step hbc ih

/-- Contribution of a task in a given phase to the gap between
`success_count` and the log length: `1` exactly when the task sits
between its two lock-guarded updates. -/
def countedW : Phase → ℕ
  | .ready => 0
  | .inFlight => 0
  | .returned _ => 0
  | .counted _ => 1
  | .doneOk _ => 0
  | .doneSendErr => 0
  | .doneBuildErr => 0

theorem scWeight_split (p : Phase) : scWeight p = rtWeight p + countedW p := by
  cases p <;> rfl

theorem sum_scWeight_split (l : List Phase) :
    (l.map scWeight).sum = (l.map rtWeight).sum + (l.map countedW).sum := by
  induction l with
  | nil => rfl
  | cons p t ih =>
    simp only [List.map_cons, List.sum_cons, ih, scWeight_split p]
    omega

theorem sum_countedW_done (l : List Phase) (h : ∀ p ∈ l, p.isDone = true) :
    (l.map countedW).sum = 0 := by
  induction l with
  | nil => rfl
  | cons p t ih =>
    have hp := h p (List.mem_cons_self p t)
    have ht := ih fun q hq => h q (List.mem_cons_of_mem p hq)
    cases p <;> simp [Phase.isDone] at hp <;> simp [countedW, ht]

theorem sum_scWeight_le_length (l : List Phase) :
    (l.map scWeight).sum ≤ l.length := by
  induction l with
  | nil => simp
  | cons p t ih =>
    have hp : scWeight p ≤ 1 := by cases p <;> simp [scWeight]
    simp only [List.map_cons, List.sum_cons, List.length_cons]
    omega

/-- Once every task has finished, its success contribution and its
failure flag are complementary, so the two counts partition the tasks. -/
theorem sum_done_split (l : List Phase) (h : ∀ p ∈ l, p.isDone = true) :
    (l.map scWeight).sum + l.countP Phase.isFailed = l.length := by
  induction l with
  | nil => rfl
  | cons p t ih =>
    have hp := h p (List.mem_cons_self p t)
    have ht := ih fun q hq => h q (List.mem_cons_of_mem p hq)
    simp only [List.map_cons, List.sum_cons, List.countP_cons, List.length_cons]
    cases p <;> simp [Phase.isDone] at hp ⊢ <;>
      simp [scWeight, Phase.isFailed] <;> omega

/-! ## Concrete executions used as evidence -/

/-- A one-task run whose request is answered with status 200 after 5ns. -/
def behOk : List Behavior := [.ok 200 5]

/-- A one-task run whose send fails with a transport error. -/
def behErr : List Behavior := [.sendErr]

/-- The state after the task performed `fetch_add` and awaits the send. -/
def stInFlight : SysState :=
  { in_flight := 1, success_count := 0, response_times := [],
    tasks := [.inFlight] }

/-- The state after the send succeeded and `fetch_sub` ran. -/
def stReturned : SysState :=
  { in_flight := 0, success_count := 0, response_times := [],
    tasks := [.returned 5] }

/-- The state after `*sc += 1` but before `rt.push(duration)`: the
success count is already 1 while the log is still empty. -/
def stCounted : SysState :=
  { in_flight := 0, success_count := 1, response_times := [],
    tasks := [.counted 5] }

/-- The terminal state of the successful one-task run. -/
def stDoneOk : SysState :=
  { in_flight := 0, success_count := 1, response_times := [5],
    tasks := [.doneOk 5] }

/-- The terminal state of the failed one-task run: the task is finished
but `in_flight` is still 1, because the `?` on `send_request` skipped
the `fetch_sub`. -/
def stLeaked : SysState :=
  { in_flight := 1, success_count := 0, response_times := [],
    tasks := [.doneSendErr] }

theorem reachable_stCounted : Reachable behOk stCounted := by
  have h1 : Step behOk (initState 1) stInFlight :=
    Step.fetchAdd (initState 1) 0 (Behavior.ok 200 5) rfl (by decide) rfl
  have h2 : Step behOk stInFlight stReturned :=
    Step.sendOk stInFlight 0 200 5 rfl rfl
  have h3 : Step behOk stReturned stCounted :=
    Step.incSuccess stReturned 0 5 rfl
  exact Relation.ReflTransGen.head h1
    (Relation.ReflTransGen.head h2
      (Relation.ReflTransGen.head h3 Relation.ReflTransGen.refl))

theorem reachable_stDoneOk : Reachable behOk stDoneOk := by
  have h4 : Step behOk stCounted stDoneOk :=
    Step.pushTime stCounted 0 5 rfl
  exact Relation.ReflTransGen.tail reachable_stCounted h4

theorem reachable_stLeaked : Reachable behErr stLeaked := by
  have h1 : Step behErr (initState 1) stInFlight :=
    Step.fetchAdd (initState 1) 0 Behavior.sendErr rfl (by decide) rfl
  have h2 : Step behErr stInFlight stLeaked :=
    Step.sendErr stInFlight 0 rfl rfl
  exact Relation.ReflTransGen.head h1
    (Relation.ReflTransGen.head h2 Relation.ReflTransGen.refl)

/-! ## Startup (main.rs lines 30-63) -/

/-- The pieces of a parsed `hyper::Uri` that lines 33-63 inspect.  A
URI authority always carries a host, so host presence is identified
with authority presence. -/
structure UriParts where
  scheme : Option String
  authority : Option String
  port : Option ℕ
deriving DecidableEq

/-- The ways the startup sequence terminates the process before the
dispatch loop is entered. -/
inductive StartupErr where
  /-- line 33: `cli.address.parse::<hyper::Uri>()?` fails -/
  | parseErr
  /-- line 37: `uri.authority().unwrap()` panics -/
  | panicNoAuthority
  /-- line 54: `uri.host().expect("uri has no host")` panics -/
  | panicNoHost
  /-- line 59: `TcpStream::connect(address).await?` fails
  (unresolvable host or unreachable endpoint) -/
  | connectErr
  /-- line 63: `http2::handshake(...).await?` fails -/
  | handshakeErr
deriving DecidableEq

/-- The externally determined outcomes of the effectful startup steps:
what the address parses to (`none` when it is not a valid URI), whether
the TCP connection succeeds, and whether the HTTP/2 handshake succeeds. -/
structure StartupEnv where
  parsed : Option UriParts
  connectOk : Bool
  handshakeOk : Bool
deriving DecidableEq

/-- Lines 34-41: when the scheme is absent the URI is rebuilt with
scheme `http` and the same authority; `uri.authority().unwrap()` panics
when the scheme-less URI has no authority.  A URI that already has a
scheme — whatever it is — passes through untouched. -/
def normalize_scheme (u : UriParts) : Except StartupErr UriParts :=
  match u.scheme with
  | some _ => .ok u
  | none =>
    match u.authority with
    | some _ => .ok { u with scheme := some "http" }
    | none => .error .panicNoAuthority

/-- Line 55: `uri.port_u16().unwrap_or(80)`. -/
def connect_port (u : UriParts) : ℕ :=
  u.port.getD 80

/-- Lines 33-63: everything that must succeed before the dispatch loop
(lines 84-114) is entered.  No step examines which scheme the URI
carries: an unsupported scheme such as `ftp` flows through to a plain
TCP connection attempt. -/
def startup (e : StartupEnv) : Except StartupErr UriParts :=
  match e.parsed with
  | none => .error .parseErr
  | some u =>
    match normalize_scheme u with
    | .error err => .error err
    | .ok u =>
      match u.authority with
      | none => .error .panicNoHost
      | some _ =>
        if e.connectOk then
          if e.handshakeOk then .ok u
          else .error .handshakeErr
        else .error .connectErr

/-- The statistics printed on lines 140-142. -/
structure RunStats where
  success_rate : Option ℚ
  median_response_time : ℕ
  average_in_flight : ℚ
deriving DecidableEq

/-- The joint effect of the request tasks once the join on line 113 has
completed: the shared success count and response-time log. -/
def runTasks (beh : List Behavior) : ℕ × List ℕ :=
  beh.foldl
    (fun acc b =>
      match b with
      | .ok _ d => (acc.1 + 1, acc.2 ++ [d])
      | _ => acc)
    (0, [])

/-- The whole of `main` (lines 30-144): run the startup sequence; on
success dispatch one task per requested request (lines 87-111, so the
number of dispatched requests is the number of per-task behaviors),
join them (line 113) and compute the statistics of lines 117-138.
Returns the number of dispatched requests and the statistics. -/
def runMain (e : StartupEnv) (beh : List Behavior) (samples : List ℕ) :
    Except StartupErr (ℕ × RunStats) :=
  match startup e with
  | .error err => .error err
  | .ok _ =>
    let r := runTasks beh
    .ok (beh.length,
      { success_rate := success_rate r.1 beh.length,
        median_response_time := median_response_time r.2,
        average_in_flight := average_in_flight samples })

/-! ## Claims -/

/-- Claim C1: evaluation of the code at the failing input — a single
request whose send fails with a transport error.  Every spawned task
has finished, yet `in_flight` is 1, not 0: the `?` on
`sender.send_request(req).await?` returned early and skipped the
`fetch_sub`, so the counter does not return to zero. -/
theorem C1_outstanding_counter_not_restored :
    (make_request 0 true SendReply.transportErr 5 = (1, none)) ∧
    Reachable behErr stLeaked ∧
    (∀ p ∈ stLeaked.tasks, p.isDone = true) ∧
    stLeaked.in_flight = 1 :=
  ⟨rfl, reachable_stLeaked, by decide, rfl⟩

/-- Claim C2: with `total = N > 0` the dispatch loop spawns exactly `N`
request tasks, and once all of them have finished, the recorded
successes and the failed tasks together account for exactly `N`
outcomes: `success_count + failures = N`. -/
theorem C2_all_outcomes_recorded (beh : List Behavior) (s : SysState)
    (_hN : 0 < beh.length) (hr : Reachable beh s)
    (hdone : ∀ p ∈ s.tasks, p.isDone = true) :
    s.tasks.length = beh.length ∧
    s.success_count + s.tasks.countP Phase.isFailed = beh.length := by
  obtain ⟨hlen, _, hsc, _⟩ := sysInv_reachable hr
  refine ⟨hlen, ?_⟩
  rw [hsc, ← hlen]
  exact sum_done_split s.tasks hdone

theorem C2_all_outcomes_recorded_witness :
    stDoneOk.tasks.length = behOk.length ∧
    stDoneOk.success_count + stDoneOk.tasks.countP Phase.isFailed =
      behOk.length :=
  C2_all_outcomes_recorded behOk stDoneOk (by decide) reachable_stDoneOk
    (by decide)

/-- Claim C3: receiving any reply from the server is recorded as a
success — the status code is never inspected — while a transport-level
failure of the exchange leaves the success count and the log untouched,
i.e. is recorded as a failure. -/
theorem C3_any_response_is_success (fl : ℤ) (sc : ℕ) (rt : List ℕ)
    (status elapsed : ℕ) :
    (make_request fl true (SendReply.response status) elapsed).2 =
      some elapsed ∧
    (make_request fl true SendReply.transportErr elapsed).2 = none ∧
    (requestTask fl sc rt true (SendReply.response status) elapsed).2 =
      (sc + 1, rt ++ [elapsed]) ∧
    (requestTask fl sc rt true SendReply.transportErr elapsed).2 =
      (sc, rt) :=
  ⟨rfl, rfl, rfl, rfl⟩

/-- Claim C6: with `totalRequested = 0` the success-rate computation is
an unguarded division by zero: whatever the success count, the divisor
is zero and no defined finite value is produced. -/
theorem C6_success_rate_division_by_zero (sc : ℕ) :
    fdiv (sc : ℚ) ((0 : ℕ) : ℚ) = none ∧ success_rate sc 0 = none := by
  constructor <;> simp [success_rate, fdiv]

/-- Claim C7: with at least one sample, `average_in_flight` is the
sample sum divided by the sample count — over `{1, 3, 2}` it is 2 —
and with no samples it is 0. -/
theorem C7_average_in_flight_mean (samples : List ℕ) :
    (0 < samples.length →
      average_in_flight samples =
        (samples.sum : ℚ) / (samples.length : ℚ)) ∧
    average_in_flight [1, 3, 2] = 2 ∧
    average_in_flight [] = 0 := by
  refine ⟨fun h => by simp [average_in_flight, h], ?_, ?_⟩
  · norm_num [average_in_flight]
  · rfl

theorem C7_average_in_flight_mean_witness :
    average_in_flight [1, 3, 2] =
      ((([1, 3, 2] : List ℕ).sum : ℚ) / ((([1, 3, 2] : List ℕ).length : ℕ) : ℚ)) :=
  (C7_average_in_flight_mean [1, 3, 2]).1 (by decide)

/-- Claim C8: with an empty set of successful outcomes the median is
the zero-duration sentinel; the computation is total, with no
out-of-bounds access. -/
theorem C8_median_empty_is_zero : median_response_time [] = 0 := rfl

/-- Claim C4: for a non-empty latency log the median is the entry at
zero-based index `⌊n/2⌋` of the ascending sorted rearrangement of the
log (the upper median for even `n`); on `{10, 20, 30}` it is 20 and on
`{10, 30}` it is 30. -/
theorem C4_median_is_sorted_middle :
    (∀ l : List ℕ, l ≠ [] →
      (List.insertionSort (fun a b => a ≤ b) l).Perm l ∧
      List.Sorted (· ≤ ·) (List.insertionSort (fun a b => a ≤ b) l) ∧
      median_response_time l =
        (List.insertionSort (fun a b => a ≤ b) l).getD (l.length / 2) 0) ∧
    median_response_time [10, 20, 30] = 20 ∧
    median_response_time [10, 30] = 30 := by
  refine ⟨?_, by decide, by decide⟩
  intro l hl
  refine ⟨List.perm_insertionSort _ l, List.sorted_insertionSort _ l, ?_⟩
  have hlen : (List.insertionSort (fun a b => a ≤ b) l).length = l.length :=
    (List.perm_insertionSort _ l).length_eq
  have hne : (List.insertionSort (fun a b => a ≤ b) l).isEmpty = false := by
    rcases hl2 : List.insertionSort (fun a b => a ≤ b) l with _ | ⟨a, t⟩
    · exact absurd (List.length_eq_zero.mp (by rw [← hlen, hl2]; rfl)) hl
    · rfl
  unfold median_response_time
  simp only [hne, Bool.false_eq_true, if_false, hlen]

theorem C4_median_is_sorted_middle_witness :
    (List.insertionSort (fun a b => a ≤ b) [10, 30]).Perm [10, 30] ∧
    List.Sorted (· ≤ ·) (List.insertionSort (fun a b => a ≤ b) [10, 30]) ∧
    median_response_time [10, 30] =
      (List.insertionSort (fun a b => a ≤ b) [10, 30]).getD
        (([10, 30] : List ℕ).length / 2) 0 :=
  C4_median_is_sorted_middle.1 [10, 30] (by decide)

/-- Claim C5: once a run of `N > 0` requests has fully finished, the
success rate is the defined value `100 · success_count / N`, and that
value lies in `[0, 100]` (because the success count cannot exceed the
number of spawned tasks). -/
theorem C5_success_rate_in_range (beh : List Behavior) (s : SysState)
    (hN : 0 < beh.length) (hr : Reachable beh s)
    (_hdone : ∀ p ∈ s.tasks, p.isDone = true) :
    success_rate s.success_count beh.length =
      some (100 * (s.success_count : ℚ) / (beh.length : ℚ)) ∧
    0 ≤ 100 * (s.success_count : ℚ) / (beh.length : ℚ) ∧
    100 * (s.success_count : ℚ) / (beh.length : ℚ) ≤ 100 := by
  obtain ⟨hlen, _, hsc, _⟩ := sysInv_reachable hr
  have hle : s.success_count ≤ beh.length := by
    have := sum_scWeight_le_length s.tasks
    omega
  have hNq : (0 : ℚ) < (beh.length : ℚ) := by exact_mod_cast hN
  refine ⟨?_, ?_, ?_⟩
  · simp only [success_rate, fdiv, Nat.cast_eq_zero,
      if_neg (by omega : beh.length ≠ 0), Option.map_some', Option.some.injEq]
    ring
  · positivity
  · rw [div_le_iff₀ hNq]
    have hleq : (s.success_count : ℚ) ≤ (beh.length : ℚ) := by exact_mod_cast hle
    nlinarith

theorem C5_success_rate_in_range_witness :
    success_rate stDoneOk.success_count behOk.length =
      some (100 * (stDoneOk.success_count : ℚ) / (behOk.length : ℚ)) ∧
    0 ≤ 100 * (stDoneOk.success_count : ℚ) / (behOk.length : ℚ) ∧
    100 * (stDoneOk.success_count : ℚ) / (behOk.length : ℚ) ≤ 100 :=
  C5_success_rate_in_range behOk stDoneOk (by decide) reachable_stDoneOk
    (by decide)

/-- Claim C10 counterexample: the claimed equality does not hold at
every point of execution.  The increment of the success counter and the
append to the response-times log happen under two separate locks, and
the interleaving that stops the task between the two reaches state
`stCounted`, where the counter is 1 while the log is still empty. -/
theorem C10_mid_task_gap :
    Reachable behOk stCounted ∧
    stCounted.success_count ≠ stCounted.response_times.length :=
  ⟨reachable_stCounted, by decide⟩

/-- Claim C10 (amended): at every reachable point the success counter
equals the log length plus the number of tasks that sit between their
success-count increment and their log append (so the counter never
falls below the log length), and at finalization — once every task has
finished — the counter equals the log length exactly: a finished task
contributed one increment and one append on success, or neither on
failure. -/
theorem C10_counter_matches_log (beh : List Behavior) (s : SysState)
    (hr : Reachable beh s) :
    s.success_count =
      s.response_times.length + (s.tasks.map countedW).sum ∧
    ((∀ p ∈ s.tasks, p.isDone = true) →
      s.success_count = s.response_times.length) := by
  obtain ⟨_, _, hsc, hrt⟩ := sysInv_reachable hr
  have hsplit := sum_scWeight_split s.tasks
  refine ⟨by omega, fun hdone => ?_⟩
  have h0 := sum_countedW_done s.tasks hdone
  omega

theorem C10_counter_matches_log_witness :
    stDoneOk.success_count = stDoneOk.response_times.length :=
  (C10_counter_matches_log behOk stDoneOk reachable_stDoneOk).2 (by decide)

/-- An address with the unsupported scheme `ftp`, against an endpoint
whose TCP connection and HTTP/2 handshake both succeed. -/
def envFtp : StartupEnv :=
  { parsed := some { scheme := some "ftp",
                     authority := some "example.com:8080",
                     port := some 8080 },
    connectOk := true, handshakeOk := true }

/-- An address that does not parse as a URI at all. -/
def envUnparseable : StartupEnv :=
  { parsed := none, connectOk := true, handshakeOk := true }

/-- A well-formed scheme-less `host:port` address whose host does not
resolve, so the TCP connection fails. -/
def envUnresolvable : StartupEnv :=
  { parsed := some { scheme := none,
                     authority := some "nosuchhost:80",
                     port := some 80 },
    connectOk := false, handshakeOk := true }

/-- Claim C9 counterexample: an unsupported scheme is not fatal.  With
scheme `ftp` the startup sequence never looks at the scheme; the run
proceeds, dispatches its one request and computes statistics. -/
theorem C9_unsupported_scheme_not_fatal :
    runMain envFtp behOk [] =
      Except.ok (1,
        { success_rate := some 100,
          median_response_time := 5,
          average_in_flight := 0 }) := by
  have hs : startup envFtp = Except.ok
      { scheme := some "ftp", authority := some "example.com:8080",
        port := some 8080 } := rfl
  have hm : median_response_time [5] = 5 := by decide
  have ha : average_in_flight [] = 0 := rfl
  have hr : success_rate 1 1 = some 100 := by
    simp [success_rate, fdiv]
  simp [runMain, hs, runTasks, behOk, hm, ha, hr]

/-- Claim C9 (amended): every startup failure — an unparseable address,
a panic on a scheme-less authority-less address, a connection failure
(e.g. an unresolvable host) or a handshake failure — aborts the run
before any request is dispatched and before any statistics are
computed; an unparseable address fails at the parse step; a connection
failure is always fatal; and a missing scheme on an address that has an
authority is not fatal but is rewritten to `http`.  (An unsupported
scheme is never itself examined.) -/
theorem C9_startup_failures_fatal :
    (∀ (e : StartupEnv) (beh : List Behavior) (samples : List ℕ)
        (err : StartupErr), startup e = .error err →
      runMain e beh samples = .error err) ∧
    (∀ e : StartupEnv, e.parsed = none → startup e = .error .parseErr) ∧
    (∀ e : StartupEnv, e.connectOk = false → ∃ err, startup e = .error err) ∧
    (∀ u : UriParts, u.scheme = none → ∀ a, u.authority = some a →
      normalize_scheme u = .ok { u with scheme := some "http" }) := by
  refine ⟨?_, ?_, ?_, ?_⟩
  · intro e beh samples err h
    simp only [runMain, h]
  · intro e h
    simp only [startup, h]
  · intro e h
    rcases e with ⟨parsed, co, ho⟩
    simp only at h
    subst h
    rcases parsed with _ | u
    · exact ⟨.parseErr, rfl⟩
    · rcases hn : normalize_scheme u with err | u2
      · exact ⟨err, by simp [startup, hn]⟩
      · rcases ha : u2.authority with _ | a
        · exact ⟨.panicNoHost, by simp [startup, hn, ha]⟩
        · exact ⟨.connectErr, by simp [startup, hn, ha]⟩
  · intro u h a ha
    simp only [normalize_scheme, h, ha]

theorem C9_startup_failures_fatal_witness :
    runMain envUnparseable behOk [] = .error .parseErr ∧
    startup envUnparseable = .error .parseErr ∧
    (∃ err, startup envUnresolvable = .error err) ∧
    normalize_scheme { scheme := none,
                       authority := some "nosuchhost:80",
                       port := some 80 } =
      .ok { scheme := some "http",
            authority := some "nosuchhost:80",
            port := some 80 } :=
  ⟨C9_startup_failures_fatal.1 envUnparseable behOk [] .parseErr rfl,
   C9_startup_failures_fatal.2.1 envUnparseable rfl,
   C9_startup_failures_fatal.2.2.1 envUnresolvable rfl,
   C9_startup_failures_fatal.2.2.2
     { scheme := none, authority := some "nosuchhost:80", port := some 80 }
     rfl "nosuchhost:80" rfl⟩
